import Mathlib

/-!
Verification development for the radar calibration module
(`core/calibration.py` of the rwu-dataset repository).

The module loads per-sensor calibration artifacts (antenna geometry,
coupling leakage, phase/frequency drift, waveform parameters) and derives
correction matrices.  We embed the numeric content shallowly:

* binary-file contents become lists of exact values (`List ℚ` for the
  32-bit coupling floats, `List ℝ` for the 64-bit drift samples,
  `List ℂ` for the complex phase samples);
* numpy arrays become a `shape` plus a row-major flat `data` list;
* numpy operations used by the source (`reshape`, scalar multiply and
  divide, `expand_dims(..,-1) * arange(ns)`, `exp(-1j * _)`, complex
  slicing `a[:,:,0] + 1j*a[:,:,1]`) become the corresponding list
  transformations on the flat data;
* Python exceptions become an `Except PyErr` result; an attribute access
  on a field that was never assigned is the `attributeError` case, and a
  numpy size-mismatched `reshape` is the `valueError` case.
-/

/-- The Python exception kinds relevant to this module: `IOError`
(missing binary resource), `ValueError` (numpy reshape size mismatch),
`AttributeError` (attribute accessed before it was assigned — the
realization of the spec's `StateError`). -/
inductive PyErr where
  | ioError : PyErr
  | valueError : PyErr
  | attributeError : PyErr
deriving DecidableEq, Repr

/-- A numpy ndarray: a shape and a row-major flat data list. -/
structure NDArray (α : Type) where
  shape : List ℕ
  data : List α
deriving Repr

namespace NDArray

/-- `np.reshape`: succeeds, keeping the flat data, when the element count
matches the product of the target shape; otherwise numpy raises
`ValueError`. -/
noncomputable def reshape (a : NDArray α) (s : List ℕ) : Except PyErr (NDArray α) :=
  if a.data.length = s.prod then Except.ok ⟨s, a.data⟩
  else Except.error PyErr.valueError

/-- Element of a rank-2 array at row-major position `(i0, i1)`. -/
noncomputable def get2 [Zero α] (a : NDArray α) (i0 i1 : ℕ) : α :=
  a.data.getD (i0 * a.shape.getD 1 1 + i1) 0

/-- Element of a rank-4 array at row-major position `(i0, i1, i2, i3)`. -/
noncomputable def get4 [Zero α] (a : NDArray α) (i0 i1 i2 i3 : ℕ) : α :=
  a.data.getD
    (((i0 * a.shape.getD 1 1 + i1) * a.shape.getD 2 1 + i2) * a.shape.getD 3 1 + i3) 0

/-- Elementwise multiplication by a scalar (numpy broadcast `a * c`). -/
noncomputable def scalarMul (a : NDArray ℝ) (c : ℝ) : NDArray ℝ :=
  ⟨a.shape, a.data.map (fun x => x * c)⟩

/-- Elementwise division by a scalar (numpy broadcast `a /= c`). -/
noncomputable def scalarDiv (a : NDArray ℝ) (c : ℝ) : NDArray ℝ :=
  ⟨a.shape, a.data.map (fun x => x / c)⟩

/-- `np.expand_dims(a, -1) * np.arange(ns)`: appends a trailing axis of
length `ns`; in row-major flat form, element `k` of the result is
element `k / ns` of `a` times the sample index `k % ns`. -/
noncomputable def mulArange (a : NDArray ℝ) (ns : ℕ) : NDArray ℝ :=
  ⟨a.shape ++ [ns],
   (List.range (a.data.length * ns)).map
     (fun k => a.data.getD (k / ns) 0 * ((k % ns : ℕ) : ℝ))⟩

/-- `np.exp(-1j * a)` applied elementwise to a real array. -/
noncomputable def expNegI (a : NDArray ℝ) : NDArray ℂ :=
  ⟨a.shape, a.data.map (fun x : ℝ => Complex.exp (-(Complex.I * (x : ℂ))))⟩

/-- The slicing combination `a[:, :, 0] + 1j * a[:, :, 1]` on an array of
shape `(ntx, nrx, 2)`: channel `i = t*nrx + r` of the result pairs the
flat elements `2*i` (real part) and `2*i + 1` (imaginary part). -/
noncomputable def complexSlices (ntx nrx : ℕ) (a : NDArray ℚ) : NDArray ℂ :=
  ⟨[ntx, nrx],
   (List.range (ntx * nrx)).map
     (fun i => ((a.data.getD (2 * i) 0 : ℚ) : ℂ)
               + Complex.I * ((a.data.getD (2 * i + 1) 0 : ℚ) : ℂ))⟩

end NDArray

/-- Python attribute access: an `Option` field that was never assigned
raises `AttributeError`. -/
def getAttr {α : Type} (x : Option α) : Except PyErr α :=
  match x with
  | some a => Except.ok a
  | none => Except.error PyErr.attributeError

/-- `AntennaConfig`: channel counts and the design base frequency (GHz)
loaded from the antenna configuration file. -/
structure AntennaConfig where
  nrx : ℕ
  ntx : ℕ
  fdesign : ℚ

/-- `CouplingCalibration` after a successful load: channel counts and
the broadcast-ready complex coupling matrix. -/
structure CouplingCalibration where
  nrx : ℕ
  ntx : ℕ
  data : NDArray ℂ

/-- `CouplingCalibration.__init__` on the contents of the companion
binary file (a flat stream of 32-bit floats, modelled exactly as
rationals): reshape to `(ntx, nrx, 2)`, combine the interleaved
real/imag planes into a complex matrix, reshape to `(ntx, nrx, 1, 1)`. -/
noncomputable def CouplingCalibration.init (ntx nrx : ℕ) (file : List ℚ) :
    Except PyErr CouplingCalibration := do
  let data : NDArray ℚ := ⟨[file.length], file⟩
  let data ← data.reshape [ntx, nrx, 2]
  let dataC := NDArray.complexSlices ntx nrx data
  let dataC ← dataC.reshape [ntx, nrx, 1, 1]
  pure ⟨nrx, ntx, dataC⟩

/-- The raw key/value content of a waveform configuration file, in
device-native units (GHz, ksps, MHz/µs, µs). -/
structure WaveformRaw where
  numRx : ℕ
  numTx : ℕ
  numAdcSamples : ℕ
  numLoops : ℕ
  startFrequency_Ghz : ℚ
  samplingFequency_ksps : ℚ
  frequencySlope_MHz_us : ℚ
  idleTime_us : ℚ
  adcStartTime_us : ℚ
  rampEndTime_us : ℚ

/-- `WaveformConfiguration` after load: every timing/frequency field in
base SI units (Hz, Hz/s, seconds). -/
structure WaveformConfiguration where
  nrx : ℕ
  ntx : ℕ
  ns : ℕ
  nc : ℕ
  fstart : ℚ
  fsample : ℚ
  fslope : ℚ
  idle_time : ℚ
  adc_start_time : ℚ
  ramp_end_time : ℚ

/-- `WaveformConfiguration.__init__`: the unit conversions performed at
load time (`* 1e+9`, `* 1e+3`, `* 1e+12`, `* 1e-6`). -/
def WaveformConfiguration.init (c : WaveformRaw) : WaveformConfiguration :=
  { nrx := c.numRx
    ntx := c.numTx
    ns := c.numAdcSamples
    nc := c.numLoops
    fstart := c.startFrequency_Ghz * 1e9
    fsample := c.samplingFequency_ksps * 1e3
    fslope := c.frequencySlope_MHz_us * 1e12
    idle_time := c.idleTime_us * 1e-6
    adc_start_time := c.adcStartTime_us * 1e-6
    ramp_end_time := c.rampEndTime_us * 1e-6 }

/-- `PhaseCalibration` after load: channel counts, the complex phase
matrix of shape `(ntx, nrx)` and the real frequency-drift matrix of
shape `(ntx, nrx)`. -/
structure PhaseCalibration where
  ntx : ℕ
  nrx : ℕ
  phase : NDArray ℂ
  frequency : NDArray ℝ

/-- The state of a `CCRadarCalibration` object when a derived matrix is
requested: the phase/frequency profile set by `__init__`, and the
waveform parameters set by the second-phase `load_waveform_config` call.
An unset field is `none` (its access raises `AttributeError`). -/
structure CCRadarCalibration where
  phase_freq_calib : Option PhaseCalibration
  waveform : Option WaveformConfiguration

/-- The inter-antenna spacing `d` computed at the end of
`SCRadarCalibration.load_waveform_config`, exactly as in the source:
start frequency and slope rescaled to GHz, chirp sampling time
`ns / fsample`, then `0.5 * ((fstart + (fslope * stime) / 2) / fdesign)`. -/
def SCRadarCalibration.load_waveform_config_d
    (antenna : AntennaConfig) (waveform : WaveformConfiguration) : ℚ :=
  let fstart : ℚ := waveform.fstart / 1e9
  let fslope : ℚ := waveform.fslope / 1e9
  let fsample : ℚ := waveform.fsample
  let stime : ℚ := (waveform.ns : ℚ) / fsample
  let fdesign : ℚ := antenna.fdesign
  0.5 * ((fstart + (fslope * stime) / 2) / fdesign)

/-- `CCRadarCalibration.get_phase_calibration`: reshape the loaded phase
matrix to `(ntx, nrx, 1, 1)`. -/
noncomputable def CCRadarCalibration.get_phase_calibration (cal : CCRadarCalibration) :
    Except PyErr (NDArray ℂ) := do
  let pfc ← getAttr cal.phase_freq_calib
  let pm := pfc.phase
  pm.reshape [pfc.ntx, pfc.nrx, 1, 1]

/-- `CCRadarCalibration.get_frequency_calibration`: scale the drift
matrix by `fslope / fsample`, divide by `ns`, take the outer product
with `arange(ns)`, apply `exp(-1j * _)` and reshape to
`(ntx, nrx, 1, ns)`. -/
noncomputable def CCRadarCalibration.get_frequency_calibration (cal : CCRadarCalibration) :
    Except PyErr (NDArray ℂ) := do
  let pfc ← getAttr cal.phase_freq_calib
  let ntx := pfc.ntx
  let nrx := pfc.nrx
  let fcal_matrix := pfc.frequency
  let wf ← getAttr cal.waveform
  let fslope : ℚ := wf.fslope
  let fsample : ℚ := wf.fsample
  let cal_matrix := fcal_matrix.scalarMul (((fslope / fsample : ℚ) : ℝ))
  let cal_matrix := cal_matrix.scalarDiv (wf.ns : ℝ)
  let cal_matrix := cal_matrix.mulArange wf.ns
  (cal_matrix.expNegI).reshape [ntx, nrx, 1, wf.ns]

/-- The phase-correction matrix as the spec describes it (to be compared
with `get_phase_calibration` from the source): every channel normalized
against the first channel, `ratio[k] = sample[0] / sample[k]`, reshaped
to `(ntx, nrx, 1, 1)`. -/
noncomputable def spec_phase_calibration (phase : NDArray ℂ) (ntx nrx : ℕ) : NDArray ℂ :=
  let s0 := phase.data.getD 0 0
  ⟨[ntx, nrx, 1, 1], phase.data.map (fun s => s0 / s)⟩

/-- The frequency-correction matrix as the spec describes it (to be
compared with `get_frequency_calibration` from the source):
`dp = freq_samples - freq_samples[0]`,
`scale = 2*pi * dp * (fslope/fslope_cal) * (srate_cal/srate) / ns`,
outer product with `[0..ns)`, then `exp(-i * ramp)`, shape
`(ntx, nrx, 1, ns)`. -/
noncomputable def spec_frequency_calibration (freq : NDArray ℝ) (ntx nrx : ℕ)
    (fslope fsample fslope_cal fsample_cal : ℚ) (ns : ℕ) : NDArray ℂ :=
  let f0 := freq.data.getD 0 0
  ⟨[ntx, nrx, 1, ns],
   (List.range (ntx * nrx * ns)).map
     (fun k =>
       let dp := freq.data.getD (k / ns) 0 - f0
       let scale := 2 * Real.pi * dp * (((fslope / fslope_cal : ℚ) : ℝ))
                    * (((fsample_cal / fsample : ℚ) : ℝ)) / (ns : ℝ)
       Complex.exp (-(Complex.I * ((scale * ((k % ns : ℕ) : ℝ) : ℝ) : ℂ))))⟩

/-- The spacing `d` computed directly from device-unit inputs
(start frequency in GHz, slope in MHz/µs, sampling rate in ksps),
following the spec's unit-invariance property: the slope in GHz/s is
`m * 1e3` and the sampling rate in Hz is `k * 1e3`. -/
def d_from_device_units (g m k : ℚ) (ns : ℕ) (fdesign : ℚ) : ℚ :=
  0.5 * ((g + ((m * 1e3) * ((ns : ℚ) / (k * 1e3))) / 2) / fdesign)

/-- Extract an element of a successfully computed rank-4 matrix
(`0` when the computation failed). -/
noncomputable def okGet4 (e : Except PyErr (NDArray ℂ)) (i0 i1 i2 i3 : ℕ) : ℂ :=
  match e with
  | Except.ok a => a.get4 i0 i1 i2 i3
  | Except.error _ => 0

/-! ## Helper lemmas on list indexing -/

/-- Indexing a mapped range within bounds. -/
theorem getD_range_map {α : Type} (f : ℕ → α) (n k : ℕ) (hk : k < n) (d : α) :
    ((List.range n).map f).getD k d = f k := by
  rw [List.getD_eq_getElem?_getD, List.getElem?_map, List.getElem?_range hk]
  rfl

/-- Indexing a mapped list within bounds. -/
theorem getD_map_of_lt {α β : Type} (l : List α) (f : α → β) (i : ℕ)
    (hi : i < l.length) (d : β) (d' : α) :
    (l.map f).getD i d = f (l.getD i d') := by
  rw [List.getD_eq_getElem?_getD, List.getElem?_map, List.getD_eq_getElem?_getD,
    List.getElem?_eq_getElem hi]
  rfl

/-- Row-major index arithmetic: quotient of `ns * i + j` by `ns`. -/
theorem rowmajor_div (i ns j : ℕ) (h : 0 < ns) (hj : j < ns) :
    (ns * i + j) / ns = i := by
  rw [Nat.mul_add_div h, Nat.div_eq_of_lt hj]
  omega

/-- Row-major index arithmetic: remainder of `ns * i + j` by `ns`. -/
theorem rowmajor_mod (i ns j : ℕ) (hj : j < ns) : (ns * i + j) % ns = j := by
  rw [Nat.mul_add_mod, Nat.mod_eq_of_lt hj]

/-! ## Concrete fixtures -/

/-- The raw waveform resource of the spec's round-trip scenario:
`startFrequency_Ghz=77`, `samplingFequency_ksps=10000`,
`frequencySlope_MHz_us=50`, `numAdcSamples=256`. -/
def wfRawC6 : WaveformRaw := ⟨4, 3, 256, 16, 77, 10000, 50, 10, 6, 60⟩

/-- The loaded waveform of the round-trip scenario. -/
def wfSI : WaveformConfiguration := WaveformConfiguration.init wfRawC6

/-- Antenna geometry with design frequency 77 GHz. -/
def antC5 : AntennaConfig := ⟨4, 3, 77⟩

/-! ## C5, C6, C7: waveform load and inter-antenna spacing -/

/-- C6: the waveform loader converts device-native units to base SI
units: the scenario resource yields `fstart = 77e9` Hz,
`fslope = 50e12` Hz/s, `fsample = 10e6` Hz, `ns = 256` samples, and a
chirp sample time `ns / fsample = 256 / 10e6 = 25.6e-6` s. -/
theorem C6_waveform_si_round_trip :
    wfSI.fstart = 77e9 ∧ wfSI.fslope = 50e12 ∧ wfSI.fsample = 10e6 ∧
    wfSI.ns = 256 ∧ (wfSI.ns : ℚ) / wfSI.fsample = 25.6e-6 ∧
    (wfSI.ns : ℚ) / wfSI.fsample = 256 / 10e6 := by
  refine ⟨?_, ?_, ?_, ?_, ?_, ?_⟩ <;>
    norm_num [wfSI, wfRawC6, WaveformConfiguration.init]

/-- C5: after waveform load, the spacing is
`d = 0.5 * (fstart_ghz + fslope_ghz * chirp_sample_time / 2) / fdesign`;
for `fdesign = 77` and the scenario waveform (`fstart = 77e9` Hz,
`fslope = 50e12` Hz/s, `fsample = 10e6` Hz, `ns = 256`), it equals
`0.5 * (77 + 50e3 * 25.6e-6 / 2) / 77` exactly. -/
theorem C5_spacing_formula :
    (∀ (antenna : AntennaConfig) (wf : WaveformConfiguration),
      SCRadarCalibration.load_waveform_config_d antenna wf
        = 0.5 * (wf.fstart / 1e9 + (wf.fslope / 1e9) * ((wf.ns : ℚ) / wf.fsample) / 2)
            / antenna.fdesign)
    ∧ SCRadarCalibration.load_waveform_config_d antC5 wfSI
        = 0.5 * (77 + 50e3 * 25.6e-6 / 2) / 77 := by
  constructor
  · intro antenna wf
    unfold SCRadarCalibration.load_waveform_config_d
    ring
  · norm_num [SCRadarCalibration.load_waveform_config_d, antC5, wfSI, wfRawC6,
      WaveformConfiguration.init]

/-- C7: the spacing `d` is invariant under the unit scaling performed at
waveform load: computing it from raw device-unit inputs (GHz, MHz/µs,
ksps) agrees exactly, over exact rational arithmetic, with computing it
from the SI fields produced by the loader. -/
theorem C7_d_unit_invariance (g m k idle adc ramp fdesign : ℚ)
    (nrx ntx ns nc : ℕ) :
    SCRadarCalibration.load_waveform_config_d ⟨nrx, ntx, fdesign⟩
      (WaveformConfiguration.init ⟨nrx, ntx, ns, nc, g, k, m, idle, adc, ramp⟩)
      = d_from_device_units g m k ns fdesign := by
  unfold SCRadarCalibration.load_waveform_config_d d_from_device_units
    WaveformConfiguration.init
  ring

/-! ## Entry-wise evaluation of the frequency-correction matrix -/

/-- Data-level evaluation of the frequency-calibration pipeline
`expNegI (mulArange (scalarDiv (scalarMul _ c) d) ns)` at flat index
`ns * i + j`. -/
theorem freq_pipeline_getD (s : List ℕ) (l : List ℝ) (c d : ℝ) (ns i j : ℕ)
    (hi : i < l.length) (hj : j < ns) :
    (NDArray.expNegI
      (NDArray.mulArange (NDArray.scalarDiv (NDArray.scalarMul ⟨s, l⟩ c) d) ns)).data.getD
        (ns * i + j) 0
      = Complex.exp (-(Complex.I * ((l.getD i 0 * c / d * (j : ℝ) : ℝ) : ℂ))) := by
  have hns : 0 < ns := by omega
  have hL2 : ((l.map (fun x => x * c)).map (fun x => x / d)).length = l.length := by
    rw [List.length_map, List.length_map]
  have step0 :
      (NDArray.expNegI
        (NDArray.mulArange (NDArray.scalarDiv (NDArray.scalarMul ⟨s, l⟩ c) d) ns)).data
      = ((List.range (((l.map (fun x => x * c)).map (fun x => x / d)).length * ns)).map
          (fun k => ((l.map (fun x => x * c)).map (fun x => x / d)).getD (k / ns) 0
                    * ((k % ns : ℕ) : ℝ))).map
          (fun x : ℝ => Complex.exp (-(Complex.I * (x : ℂ)))) := rfl
  rw [step0]
  have hklt : ns * i + j
      < ((List.range (((l.map (fun x => x * c)).map (fun x => x / d)).length * ns)).map
          (fun k => ((l.map (fun x => x * c)).map (fun x => x / d)).getD (k / ns) 0
                    * ((k % ns : ℕ) : ℝ))).length := by
    rw [List.length_map, List.length_range, hL2]
    calc ns * i + j < ns * i + ns := by omega
    _ = ns * (i + 1) := by ring
    _ ≤ ns * l.length := Nat.mul_le_mul_left _ (by omega)
    _ = l.length * ns := by ring
  rw [getD_map_of_lt
    ((List.range (((l.map (fun x => x * c)).map (fun x => x / d)).length * ns)).map
      (fun k => ((l.map (fun x => x * c)).map (fun x => x / d)).getD (k / ns) 0
                * ((k % ns : ℕ) : ℝ)))
    (fun x : ℝ => Complex.exp (-(Complex.I * (x : ℂ)))) (ns * i + j) hklt 0 0]
  have hklt2 : ns * i + j
      < ((l.map (fun x => x * c)).map (fun x => x / d)).length * ns := by
    rw [List.length_map, List.length_range] at hklt
    exact hklt
  rw [getD_range_map
    (fun k => ((l.map (fun x => x * c)).map (fun x => x / d)).getD (k / ns) 0
              * ((k % ns : ℕ) : ℝ))
    (((l.map (fun x => x * c)).map (fun x => x / d)).length * ns) (ns * i + j) hklt2 0]
  rw [rowmajor_div i ns j hns hj, rowmajor_mod i ns j hj]
  have hi2 : i < (l.map (fun x => x * c)).length := by rw [List.length_map]; exact hi
  rw [getD_map_of_lt (l.map (fun x => x * c)) (fun x => x / d) i hi2 0 0]
  rw [getD_map_of_lt l (fun x => x * c) i hi 0 0]

/-- Shared evaluation lemma: with the profile and the waveform loaded,
`get_frequency_calibration` succeeds, has shape `(ntx, nrx, 1, ns)`, and
its `(t, r, 0, j)` entry equals
`exp(-i * (freq[t,r] * (fslope/fsample) / ns * j))`. -/
theorem get_frequency_calibration_entry
    (cal : CCRadarCalibration) (pfc : PhaseCalibration) (wf : WaveformConfiguration)
    (hp : cal.phase_freq_calib = some pfc) (hw : cal.waveform = some wf)
    (hshape : pfc.frequency.shape = [pfc.ntx, pfc.nrx])
    (hlen : pfc.frequency.data.length = pfc.ntx * pfc.nrx)
    (t r j : ℕ) (ht : t < pfc.ntx) (hr : r < pfc.nrx) (hj : j < wf.ns) :
    ∃ out, cal.get_frequency_calibration = Except.ok out ∧
      out.shape = [pfc.ntx, pfc.nrx, 1, wf.ns] ∧
      out.get4 t r 0 j
        = Complex.exp (-(Complex.I *
            ((pfc.frequency.get2 t r
              * ((wf.fslope / wf.fsample : ℚ) : ℝ) / (wf.ns : ℝ) * (j : ℝ) : ℝ) : ℂ))) := by
  have hns : 0 < wf.ns := by omega
  have hi : t * pfc.nrx + r < pfc.ntx * pfc.nrx := by
    calc t * pfc.nrx + r < t * pfc.nrx + pfc.nrx := by omega
    _ = (t + 1) * pfc.nrx := by ring
    _ ≤ pfc.ntx * pfc.nrx := Nat.mul_le_mul_right _ (by omega)
  obtain ⟨s, l, hsl⟩ : ∃ s0 l0, pfc.frequency = ⟨s0, l0⟩ :=
    ⟨pfc.frequency.shape, pfc.frequency.data, rfl⟩
  have hllen : l.length = pfc.ntx * pfc.nrx := by rw [hsl] at hlen; exact hlen
  have hs2 : s = [pfc.ntx, pfc.nrx] := by rw [hsl] at hshape; exact hshape
  set c : ℝ := ((wf.fslope / wf.fsample : ℚ) : ℝ) with hc
  unfold CCRadarCalibration.get_frequency_calibration
  rw [hp, hw]
  simp only [getAttr, bind, Except.bind]
  rw [hsl]
  have hm4len :
      (NDArray.expNegI
        (NDArray.mulArange (NDArray.scalarDiv (NDArray.scalarMul ⟨s, l⟩ c) (wf.ns : ℝ))
          wf.ns)).data.length = l.length * wf.ns := by
    show (((List.range (((l.map (fun x => x * c)).map (fun x => x / (wf.ns : ℝ))).length
        * wf.ns)).map
        (fun k => ((l.map (fun x => x * c)).map (fun x => x / (wf.ns : ℝ))).getD (k / wf.ns) 0
                  * ((k % wf.ns : ℕ) : ℝ))).map
        (fun x : ℝ => Complex.exp (-(Complex.I * (x : ℂ))))).length = l.length * wf.ns
    simp only [List.length_map, List.length_range]
  rw [NDArray.reshape, if_pos (by
    rw [hm4len, hllen]
    simp only [List.prod_cons, List.prod_nil]
    ring)]
  refine ⟨_, rfl, rfl, ?_⟩
  unfold NDArray.get4
  simp only [List.getD_cons_succ, List.getD_cons_zero]
  rw [show ((t * pfc.nrx + r) * 1 + 0) * wf.ns + j = wf.ns * (t * pfc.nrx + r) + j by ring]
  rw [freq_pipeline_getD s l c (wf.ns : ℝ) wf.ns (t * pfc.nrx + r) j (by omega) hj]
  unfold NDArray.get2
  rw [show (NDArray.data ⟨s, l⟩) = l from rfl, show (NDArray.shape ⟨s, l⟩) = s from rfl, hs2]
  simp only [List.getD_cons_succ, List.getD_cons_zero]

/-! ## Fixtures for the frequency-correction claims -/

/-- A single-channel profile fixture whose drift sample is `π`. -/
noncomputable def pfcCex : PhaseCalibration :=
  ⟨1, 1, ⟨[1, 1], [1]⟩, ⟨[1, 1], [Real.pi]⟩⟩

/-- A waveform fixture with `ns = 2`, `fslope = 2`, `fsample = 1`. -/
def wfCex : WaveformConfiguration := ⟨1, 1, 2, 1, 1, 1, 2, 0, 0, 0⟩

/-- A fully loaded cascaded-radar state over the fixtures above. -/
noncomputable def calCex : CCRadarCalibration := ⟨some pfcCex, some wfCex⟩

/-- C2 (counterexample): at the fixture state the code's frequency
correction has entry `-1` at `(0,0,0,1)`, while the spec's formula —
with the calibration recording's slope and rate taken equal to the live
ones, so that its rescaling ratios are `1` — yields `1` there, because
for a single channel `dp = freq_samples - freq_samples[0]` vanishes.
Hence the code does not compute the spec's matrix. -/
theorem C2_counterexample :
    okGet4 (CCRadarCalibration.get_frequency_calibration calCex) 0 0 0 1 = -1 ∧
    (spec_frequency_calibration pfcCex.frequency 1 1
      wfCex.fslope wfCex.fsample wfCex.fslope wfCex.fsample 2).get4 0 0 0 1 = 1 ∧
    (-1 : ℂ) ≠ 1 := by
  refine ⟨?_, ?_, by norm_num⟩
  · obtain ⟨out, hout, hsh, hentry⟩ :=
      get_frequency_calibration_entry calCex pfcCex wfCex rfl rfl rfl rfl
        0 0 1 (by norm_num [pfcCex]) (by norm_num [pfcCex]) (by norm_num [wfCex])
    rw [show okGet4 (CCRadarCalibration.get_frequency_calibration calCex) 0 0 0 1
        = (CCRadarCalibration.get_frequency_calibration calCex).casesOn
            (fun _ => 0) (fun a => a.get4 0 0 0 1) from rfl] at *
    rw [hout] at *
    show out.get4 0 0 0 1 = -1
    rw [hentry]
    have h1 : pfcCex.frequency.get2 0 0 = Real.pi := by
      simp [pfcCex, NDArray.get2]
    rw [h1]
    have h2 : (Real.pi * ((wfCex.fslope / wfCex.fsample : ℚ) : ℝ)
        / ((wfCex.ns : ℕ) : ℝ) * ((1 : ℕ) : ℝ)) = Real.pi := by
      norm_num [wfCex]
    rw [h2]
    rw [show -(Complex.I * (Real.pi : ℂ)) = -((Real.pi : ℂ) * Complex.I) by ring]
    rw [Complex.exp_neg, Complex.exp_pi_mul_I]
    norm_num
  · norm_num [spec_frequency_calibration, NDArray.get4, List.range_succ]

/-- C2 (amended): with the profile and waveform loaded, the frequency
correction returns `exp(-i * ramp)` of shape `(ntx, nrx, 1, ns)` where
`ramp(t,r,j) = freq_samples[t,r] * (fslope / srate) / ns * j` — the raw
drift samples scaled by the live slope-to-rate ratio, with no `2π`
factor, no subtraction of the reference channel, and no
calibration-recording rescaling. -/
theorem C2_frequency_calibration_formula
    (cal : CCRadarCalibration) (pfc : PhaseCalibration) (wf : WaveformConfiguration)
    (hp : cal.phase_freq_calib = some pfc) (hw : cal.waveform = some wf)
    (hshape : pfc.frequency.shape = [pfc.ntx, pfc.nrx])
    (hlen : pfc.frequency.data.length = pfc.ntx * pfc.nrx)
    (t r j : ℕ) (ht : t < pfc.ntx) (hr : r < pfc.nrx) (hj : j < wf.ns) :
    ∃ out, cal.get_frequency_calibration = Except.ok out ∧
      out.shape = [pfc.ntx, pfc.nrx, 1, wf.ns] ∧
      out.get4 t r 0 j
        = Complex.exp (-(Complex.I *
            ((pfc.frequency.get2 t r
              * ((wf.fslope / wf.fsample : ℚ) : ℝ) / (wf.ns : ℝ) * (j : ℝ) : ℝ) : ℂ))) :=
  get_frequency_calibration_entry cal pfc wf hp hw hshape hlen t r j ht hr hj

/-- Witness for the amended C2 at the fixture state: the entry
`(0,0,0,1)` is `exp(-i * (π * 2 / 2 * 1))`. -/
theorem C2_frequency_calibration_formula_witness :
    ∃ out, CCRadarCalibration.get_frequency_calibration calCex = Except.ok out ∧
      out.shape = [1, 1, 1, 2] ∧
      out.get4 0 0 0 1
        = Complex.exp (-(Complex.I *
            ((pfcCex.frequency.get2 0 0
              * ((wfCex.fslope / wfCex.fsample : ℚ) : ℝ) / ((wfCex.ns : ℕ) : ℝ)
              * ((1 : ℕ) : ℝ) : ℝ) : ℂ))) :=
  C2_frequency_calibration_formula calCex pfcCex wfCex rfl rfl rfl rfl
    0 0 1 (by norm_num [pfcCex]) (by norm_num [pfcCex]) (by norm_num [wfCex])

/-- C4: every in-range entry of the frequency-correction matrix has
magnitude exactly 1: it is a pure phase rotation `exp(-i*θ)` with real
`θ`. -/
theorem C4_unit_magnitude
    (cal : CCRadarCalibration) (pfc : PhaseCalibration) (wf : WaveformConfiguration)
    (hp : cal.phase_freq_calib = some pfc) (hw : cal.waveform = some wf)
    (hshape : pfc.frequency.shape = [pfc.ntx, pfc.nrx])
    (hlen : pfc.frequency.data.length = pfc.ntx * pfc.nrx)
    (t r j : ℕ) (ht : t < pfc.ntx) (hr : r < pfc.nrx) (hj : j < wf.ns) :
    ∃ out, cal.get_frequency_calibration = Except.ok out ∧
      Complex.abs (out.get4 t r 0 j) = 1 := by
  obtain ⟨out, hout, hsh, hentry⟩ :=
    get_frequency_calibration_entry cal pfc wf hp hw hshape hlen t r j ht hr hj
  refine ⟨out, hout, ?_⟩
  rw [hentry, Complex.abs_exp]
  simp

/-- Witness for C4 at the fixture state. -/
theorem C4_unit_magnitude_witness :
    ∃ out, CCRadarCalibration.get_frequency_calibration calCex = Except.ok out ∧
      Complex.abs (out.get4 0 0 0 1) = 1 :=
  C4_unit_magnitude calCex pfcCex wfCex rfl rfl rfl rfl
    0 0 1 (by norm_num [pfcCex]) (by norm_num [pfcCex]) (by norm_num [wfCex])

/-- C10: the entry of the frequency-correction matrix at sample index 0
is exactly `1 + 0i`, because the phase ramp is the per-channel scale
times the sample index, which vanishes at the first sample. -/
theorem C10_first_sample_unity
    (cal : CCRadarCalibration) (pfc : PhaseCalibration) (wf : WaveformConfiguration)
    (hp : cal.phase_freq_calib = some pfc) (hw : cal.waveform = some wf)
    (hshape : pfc.frequency.shape = [pfc.ntx, pfc.nrx])
    (hlen : pfc.frequency.data.length = pfc.ntx * pfc.nrx)
    (t r : ℕ) (ht : t < pfc.ntx) (hr : r < pfc.nrx) (hns : 0 < wf.ns) :
    ∃ out, cal.get_frequency_calibration = Except.ok out ∧
      out.get4 t r 0 0 = 1 := by
  obtain ⟨out, hout, hsh, hentry⟩ :=
    get_frequency_calibration_entry cal pfc wf hp hw hshape hlen t r 0 ht hr hns
  refine ⟨out, hout, ?_⟩
  rw [hentry]
  simp

/-- Witness for C10 at the fixture state. -/
theorem C10_first_sample_unity_witness :
    ∃ out, CCRadarCalibration.get_frequency_calibration calCex = Except.ok out ∧
      out.get4 0 0 0 0 = 1 :=
  C10_first_sample_unity calCex pfcCex wfCex rfl rfl rfl rfl
    0 0 (by norm_num [pfcCex]) (by norm_num [pfcCex]) (by norm_num [wfCex])

/-! ## Phase calibration (C1) -/

/-- Shared evaluation lemma: with the profile loaded,
`get_phase_calibration` succeeds, has shape `(ntx, nrx, 1, 1)`, and its
`(t, r, 0, 0)` entry is the loaded phase sample at `(t, r)`, unchanged. -/
theorem get_phase_calibration_entry
    (cal : CCRadarCalibration) (pfc : PhaseCalibration)
    (hp : cal.phase_freq_calib = some pfc)
    (hshape : pfc.phase.shape = [pfc.ntx, pfc.nrx])
    (hlen : pfc.phase.data.length = pfc.ntx * pfc.nrx)
    (t r : ℕ) (ht : t < pfc.ntx) (hr : r < pfc.nrx) :
    ∃ out, cal.get_phase_calibration = Except.ok out ∧
      out.shape = [pfc.ntx, pfc.nrx, 1, 1] ∧
      out.get4 t r 0 0 = pfc.phase.get2 t r := by
  unfold CCRadarCalibration.get_phase_calibration
  rw [hp]
  simp only [getAttr, bind, Except.bind]
  rw [NDArray.reshape, if_pos (by
    rw [hlen]
    simp only [List.prod_cons, List.prod_nil]
    ring)]
  refine ⟨_, rfl, rfl, ?_⟩
  unfold NDArray.get4 NDArray.get2
  simp only [List.getD_cons_succ, List.getD_cons_zero]
  rw [hshape]
  simp only [List.getD_cons_succ, List.getD_cons_zero]
  rw [show ((t * pfc.nrx + r) * 1 + 0) * 1 + 0 = t * pfc.nrx + r by ring]

/-- Fixture for the C1 counterexample: a single-channel profile whose
phase sample is `2`. -/
noncomputable def pfcP : PhaseCalibration := ⟨1, 1, ⟨[1, 1], [2]⟩, ⟨[1, 1], [0]⟩⟩

/-- A cascaded-radar state holding `pfcP`, waveform not yet loaded. -/
noncomputable def calP : CCRadarCalibration := ⟨some pfcP, none⟩

/-- C1 (counterexample): at the fixture profile (single channel, phase
sample `2`) the code returns entry `2`, while the spec's normalization
`ratio[k] = sample[0] / sample[k]` yields `1` at the reference channel.
Hence the code does not normalize against the first channel and the
reference entry is not `1 + 0i`. -/
theorem C1_counterexample :
    okGet4 (CCRadarCalibration.get_phase_calibration calP) 0 0 0 0 = 2 ∧
    (spec_phase_calibration pfcP.phase 1 1).get4 0 0 0 0 = 1 ∧
    (2 : ℂ) ≠ 1 := by
  refine ⟨?_, ?_, by norm_num⟩
  · obtain ⟨out, hout, hsh, hentry⟩ :=
      get_phase_calibration_entry calP pfcP rfl rfl rfl 0 0
        (by norm_num [pfcP]) (by norm_num [pfcP])
    rw [show okGet4 (CCRadarCalibration.get_phase_calibration calP) 0 0 0 0
        = (CCRadarCalibration.get_phase_calibration calP).casesOn
            (fun _ => 0) (fun a => a.get4 0 0 0 0) from rfl]
    rw [hout]
    show out.get4 0 0 0 0 = 2
    rw [hentry]
    simp [pfcP, NDArray.get2]
  · norm_num [spec_phase_calibration, NDArray.get4, pfcP]

/-- C1 (amended): `get_phase_calibration` returns the loaded phase
matrix unchanged, reshaped to `(ntx, nrx, 1, 1)`: entry `(t, r, 0, 0)`
equals `sample[t, r]`; no per-channel normalization is performed, so the
reference entry equals `sample[0, 0]` rather than `1` in general. -/
theorem C1_phase_calibration_reshape
    (cal : CCRadarCalibration) (pfc : PhaseCalibration)
    (hp : cal.phase_freq_calib = some pfc)
    (hshape : pfc.phase.shape = [pfc.ntx, pfc.nrx])
    (hlen : pfc.phase.data.length = pfc.ntx * pfc.nrx)
    (t r : ℕ) (ht : t < pfc.ntx) (hr : r < pfc.nrx) :
    ∃ out, cal.get_phase_calibration = Except.ok out ∧
      out.shape = [pfc.ntx, pfc.nrx, 1, 1] ∧
      out.get4 t r 0 0 = pfc.phase.get2 t r :=
  get_phase_calibration_entry cal pfc hp hshape hlen t r ht hr

/-- Witness for the amended C1 at the fixture state. -/
theorem C1_phase_calibration_reshape_witness :
    ∃ out, CCRadarCalibration.get_phase_calibration calP = Except.ok out ∧
      out.shape = [1, 1, 1, 1] ∧
      out.get4 0 0 0 0 = pfcP.phase.get2 0 0 :=
  C1_phase_calibration_reshape calP pfcP rfl rfl rfl 0 0
    (by norm_num [pfcP]) (by norm_num [pfcP])

/-! ## Coupling calibration (C3, C8) -/

/-- C3: when the companion binary file holds exactly `ntx*nrx*2`
elements, the coupling load succeeds, the reconstructed complex matrix
has shape exactly `(ntx, nrx, 1, 1)`, and for every channel pair the
real part is the file element at interleaved row-major position
`(t, r, 0)` and the imaginary part the one at `(t, r, 1)`. -/
theorem C3_coupling_reconstruction
    (ntx nrx : ℕ) (file : List ℚ) (h : file.length = ntx * nrx * 2)
    (t r : ℕ) (ht : t < ntx) (hr : r < nrx) :
    ∃ c, CouplingCalibration.init ntx nrx file = Except.ok c ∧
      c.data.shape = [ntx, nrx, 1, 1] ∧
      (c.data.get4 t r 0 0).re = ((file.getD ((t * nrx + r) * 2) 0 : ℚ) : ℝ) ∧
      (c.data.get4 t r 0 0).im = ((file.getD ((t * nrx + r) * 2 + 1) 0 : ℚ) : ℝ) := by
  have hi : t * nrx + r < ntx * nrx := by
    calc t * nrx + r < t * nrx + nrx := by omega
    _ = (t + 1) * nrx := by ring
    _ ≤ ntx * nrx := Nat.mul_le_mul_right _ (by omega)
  simp only [CouplingCalibration.init]
  rw [NDArray.reshape, if_pos (by
    show file.length = [ntx, nrx, 2].prod
    rw [h]
    simp only [List.prod_cons, List.prod_nil]
    ring)]
  simp only [bind, Except.bind]
  rw [NDArray.reshape, if_pos (by
    show (NDArray.complexSlices ntx nrx ⟨[ntx, nrx, 2], file⟩).data.length
      = [ntx, nrx, 1, 1].prod
    unfold NDArray.complexSlices
    rw [show (NDArray.data ⟨[ntx, nrx],
        (List.range (ntx * nrx)).map
          (fun i => ((file.getD (2 * i) 0 : ℚ) : ℂ)
                    + Complex.I * ((file.getD (2 * i + 1) 0 : ℚ) : ℂ))⟩)
        = (List.range (ntx * nrx)).map
            (fun i => ((file.getD (2 * i) 0 : ℚ) : ℂ)
                      + Complex.I * ((file.getD (2 * i + 1) 0 : ℚ) : ℂ)) from rfl]
    rw [List.length_map, List.length_range]
    simp only [List.prod_cons, List.prod_nil]
    ring)]
  refine ⟨_, rfl, rfl, ?_, ?_⟩ <;>
  · unfold NDArray.get4 NDArray.complexSlices
    simp only [List.getD_cons_succ, List.getD_cons_zero]
    rw [show ((t * nrx + r) * 1 + 0) * 1 + 0 = t * nrx + r by ring]
    rw [getD_range_map
      (fun i => ((file.getD (2 * i) 0 : ℚ) : ℂ)
                + Complex.I * ((file.getD (2 * i + 1) 0 : ℚ) : ℂ))
      (ntx * nrx) (t * nrx + r) hi 0]
    rw [show 2 * (t * nrx + r) = (t * nrx + r) * 2 by ring]
    simp [Complex.add_re, Complex.add_im, Complex.mul_re, Complex.mul_im]

/-- Witness for C3: a 1×1 stream `[3, 4]` loads as the matrix with the
single entry `3 + 4i`. -/
theorem C3_coupling_reconstruction_witness :
    ([3, 4] : List ℚ).length = 1 * 1 * 2 ∧
    (∃ c, CouplingCalibration.init 1 1 [3, 4] = Except.ok c ∧
      c.data.shape = [1, 1, 1, 1] ∧
      (c.data.get4 0 0 0 0).re = (((([3, 4] : List ℚ).getD ((0 * 1 + 0) * 2) 0 : ℚ)) : ℝ) ∧
      (c.data.get4 0 0 0 0).im = (((([3, 4] : List ℚ).getD ((0 * 1 + 0) * 2 + 1) 0 : ℚ)) : ℝ)) :=
  ⟨by decide, C3_coupling_reconstruction 1 1 [3, 4] (by decide) 0 0 (by decide) (by decide)⟩

/-- C8 (counterexample): a three-element stream for a 1×1 channel layout
(expected `1*1*2 = 2` elements) makes the load fail — but with the numpy
reshape `ValueError`, not an `IOError`. -/
theorem C8_counterexample :
    CouplingCalibration.init 1 1 [1, 2, 3] = Except.error PyErr.valueError ∧
    PyErr.valueError ≠ PyErr.ioError := by
  constructor
  · rfl
  · decide

/-- C8 (amended): whenever the companion binary stream does not hold
exactly `ntx*nrx*2` elements, the coupling load fails with the numpy
reshape size-mismatch error (`ValueError`) and produces no matrix. -/
theorem C8_size_mismatch_fails
    (ntx nrx : ℕ) (file : List ℚ) (h : file.length ≠ ntx * nrx * 2) :
    CouplingCalibration.init ntx nrx file = Except.error PyErr.valueError := by
  simp only [CouplingCalibration.init]
  rw [NDArray.reshape, if_neg (by
    show ¬ file.length = [ntx, nrx, 2].prod
    simp only [List.prod_cons, List.prod_nil]
    intro hc
    apply h
    rw [hc]
    ring)]
  rfl

/-- Witness for the amended C8 at the concrete mismatched stream. -/
theorem C8_size_mismatch_fails_witness :
    ([1, 2, 3] : List ℚ).length ≠ 1 * 1 * 2 ∧
    CouplingCalibration.init 1 1 [1, 2, 3] = Except.error PyErr.valueError :=
  ⟨by decide, C8_size_mismatch_fails 1 1 [1, 2, 3] (by decide)⟩

/-! ## Missing prerequisite state (C9) -/

/-- C9: when the phase/frequency profile or the waveform parameters are
not loaded, the frequency-correction operation fails with the
missing-attribute error (the code's realization of the spec's
`StateError`) and never returns a matrix. -/
theorem C9_frequency_correction_requires_state
    (cal : CCRadarCalibration)
    (h : cal.phase_freq_calib = none ∨ cal.waveform = none) :
    cal.get_frequency_calibration = Except.error PyErr.attributeError ∧
    ∀ out, cal.get_frequency_calibration ≠ Except.ok out := by
  have hmain : cal.get_frequency_calibration = Except.error PyErr.attributeError := by
    unfold CCRadarCalibration.get_frequency_calibration
    rcases h with h | h
    · rw [h]
      rfl
    · rcases hcp : cal.phase_freq_calib with _ | pfc
      · rfl
      · rw [h]
        rfl
  refine ⟨hmain, fun out hc => ?_⟩
  rw [hmain] at hc
  cases hc

/-- The cascaded-radar state with the profile loaded but the waveform
configuration never supplied. -/
noncomputable def calNoWf : CCRadarCalibration := ⟨some pfcCex, none⟩

/-- Witness for C9: at a state missing the waveform, the operation
fails. -/
theorem C9_frequency_correction_requires_state_witness :
    CCRadarCalibration.get_frequency_calibration calNoWf
      = Except.error PyErr.attributeError ∧
    ∀ out, CCRadarCalibration.get_frequency_calibration calNoWf ≠ Except.ok out :=
  C9_frequency_correction_requires_state calNoWf (Or.inr rfl)
